import Mathlib

/-!
Verification development for the real-time two-stage EEG classification
pipeline of the Brain-Activity-Monitor repository (file
`src/UI/real_time.py`, together with the offline action-model trainer in
`src/classifier/action_model/action_classifier.py`).

Shallow embedding conventions:

* Machine floats are idealised as exact rationals (`ℚ`); the IEEE special
  value `+inf` produced by `np.inf` is represented by the dedicated
  constructor `PyVal.posInf` of a two-constructor sum type, so the
  "positive-infinity sentinel" of the spec is a distinct value, never the
  result of arithmetic.
* External SciPy/NumPy numeric kernels (`welch`, `butter`, `filtfilt`,
  `skew`, `kurtosis`, `np.var`, `np.std`, `np.trapezoid`) are opaque
  parameters collected in the structure `NumLib`; the code under
  verification only chains them, so every claim is proved for all
  possible kernels.  The documented library contracts we rely on are:
  `scipy.signal.filtfilt` returns an output of the same length as its
  input (field `filtfilt_len`); `scipy.signal.welch` on a zero-length
  signal early-returns empty frequency and density arrays — its
  `x.size == 0` shortcut fires before any `nperseg` validation, as pinned
  by the scipy regression test `test_empty_input` (field `welch_nil`);
  `np.trapezoid` of empty arrays is `0.0` (field `trapezoid_nil`); and
  scikit-learn estimators validate the input of `predict` and raise
  `ValueError` on non-finite entries (modelled at the predict call in
  `choose_filter`: the only non-finite feature value representable in the
  rational model is the `posInf` ratio sentinel).
* A channels-by-timepoints matrix is a `List (List ℚ)` (row = channel).
* Snippet file identifiers are modelled as `ℕ` (the spec: identifiers
  carry a monotonically increasing numeric counter); the consumed set
  `processed_files` and directory listings are `List ℕ` with set
  semantics (`List.insert` / `List.dedup` mirror python `set`).
* Python exceptions are modelled with `Except String`; an exception that
  is raised outside the single `try: pd.read_csv` block of the polling
  loop aborts the loop (boolean abort flag in `runFiles`).
* The two pickled model artifacts (`filter_clf`, `filter_label_encoder`,
  `clf`), the random window offset, the two `time.time()` readings and
  the `f"{x:.2f}"` float formatting are opaque per-process parameters
  collected in the structure `PipelineEnv`.
-/

/-- Value of a python float variable that may hold the `np.inf` sentinel:
either an ordinary (exact-rational) float or positive infinity. -/
inductive PyVal where
  | fin : ℚ → PyVal
  | posInf : PyVal
deriving DecidableEq, Repr

/-- Opaque numeric kernels imported from SciPy/NumPy by `real_time.py`.
`welch fs signal nperseg` returns the pair `(freqs, psd)`;
`butter order low high` returns the coefficient pair `(b, a)` for the
normalised band `[low, high]`; `filtfilt ba signal` is forward-backward
filtering, which by the SciPy contract preserves the signal length
(`filtfilt_len`).  `skew`, `kurtosis`, `var`, `std` are the per-axis
statistics reduced over one channel, and `trapezoid ys xs` is
`np.trapezoid(y, x)`.  Two further documented behaviours are recorded as
laws: on a zero-length signal `welch` early-returns empty arrays (its
`x.size == 0` shortcut runs before any `nperseg` validation, so no error
is raised there; `welch_nil`), and `np.trapezoid` of empty arrays is
`0.0` (`trapezoid_nil`). -/
structure NumLib where
  welch : ℚ → List ℚ → ℕ → List ℚ × List ℚ
  butter : ℕ → ℚ → ℚ → List ℚ × List ℚ
  filtfilt : List ℚ × List ℚ → List ℚ → List ℚ
  filtfilt_len : ∀ ba s, (filtfilt ba s).length = s.length
  skew : List ℚ → ℚ
  kurtosis : List ℚ → ℚ
  var : List ℚ → ℚ
  std : List ℚ → ℚ
  trapezoid : List ℚ → List ℚ → ℚ
  welch_nil : ∀ fs nperseg, welch fs [] nperseg = ([], [])
  trapezoid_nil : trapezoid [] [] = 0

/-- Mean of a list of rationals: `np.mean` / `ndarray.mean()` under the
exact-rational idealisation (the model never applies it to an empty list
on a path a claim depends on). -/
def npMean (xs : List ℚ) : ℚ := xs.sum / xs.length

/-- Translation of `bandpass_filter(signal, fs, lowcut, highcut, order=4)`
(real_time.py lines 12-18): normalise the cutoffs by the Nyquist
frequency, design a Butterworth band filter, apply `filtfilt`. -/
def bandpass_filter (L : NumLib) (signal : List ℚ) (fs lowcut highcut : ℚ)
    (order : ℕ := 4) : List ℚ :=
  let nyq := 1/2 * fs
  let low := lowcut / nyq
  let high := highcut / nyq
  let ba := L.butter order low high
  L.filtfilt ba signal

/-- Translation of `filter_biting` (real_time.py line 20). -/
def filter_biting (L : NumLib) (signal : List ℚ) (fs : ℚ) : List ℚ :=
  bandpass_filter L signal fs 20 50

/-- Translation of `filter_blink` (real_time.py line 23); `0.1` is the
rational `1/10`. -/
def filter_blink (L : NumLib) (signal : List ℚ) (fs : ℚ) : List ℚ :=
  bandpass_filter L signal fs (1/10) 4

/-- Translation of `filter_eyebrow` (real_time.py line 26). -/
def filter_eyebrow (L : NumLib) (signal : List ℚ) (fs : ℚ) : List ℚ :=
  bandpass_filter L signal fs 25 40

/-- Translation of `filter_jaw` (real_time.py line 29). -/
def filter_jaw (L : NumLib) (signal : List ℚ) (fs : ℚ) : List ℚ :=
  bandpass_filter L signal fs 20 50

/-- Translation of `compute_band_power(signal, fs, lowcut, highcut)`
(real_time.py lines 32-36): Welch spectral density, boolean band mask
`(freqs >= lowcut) & (freqs <= highcut)` applied to both arrays
(modelled by filtering the zipped pairs), and trapezoidal integration.
Total: on a zero-length signal `welch` early-returns empty arrays (its
`x.size == 0` shortcut precedes any `nperseg` validation, per the scipy
regression test `test_empty_input`), the mask of empties is empty, and
`np.trapezoid` of empties is `0.0`. -/
def compute_band_power (L : NumLib) (signal : List ℚ) (fs lowcut highcut : ℚ) : ℚ :=
  let nperseg := min 256 signal.length
  let fp := L.welch fs signal nperseg
  let band := (fp.1.zip fp.2).filter (fun p => decide (lowcut ≤ p.1 ∧ p.1 ≤ highcut))
  L.trapezoid (band.map Prod.snd) (band.map Prod.fst)

/-- Translation of `extract_filter_features(snippet, fs)` (real_time.py
lines 46-62).  The six entries, in order: average per-channel variance,
average per-channel skewness, average per-channel kurtosis, average
high-band (20-50 Hz) power, average low-band (0.1-4 Hz) power, and the
high/low power ratio, which is the `np.inf` sentinel exactly when the
average low-band power is zero.  Total — the function itself raises
nothing, even on zero-timepoint windows.  In the rational model there
are no NaN values (`np.nanmean` of the omit-policy statistics coincides
with the plain mean, and statistics over empty channels are idealised as
finite rationals); the representable non-finite feature value is the
`posInf` ratio sentinel. -/
def extract_filter_features (L : NumLib) (snippet : List (List ℚ)) (fs : ℚ) :
    List PyVal :=
  let avg_variance := npMean (snippet.map L.var)
  let avg_skew := npMean (snippet.map L.skew)
  let avg_kurtosis := npMean (snippet.map L.kurtosis)
  let avg_high_freq_power :=
    npMean (snippet.map (fun channel => compute_band_power L channel fs 20 50))
  let avg_low_freq_power :=
    npMean (snippet.map (fun channel => compute_band_power L channel fs (1/10) 4))
  let power_ratio : PyVal :=
    if avg_low_freq_power ≠ 0 then .fin (avg_high_freq_power / avg_low_freq_power)
    else .posInf
  [.fin avg_variance, .fin avg_skew, .fin avg_kurtosis,
   .fin avg_high_freq_power, .fin avg_low_freq_power, power_ratio]

/-- Translation of the name-to-function dictionary built inside
`choose_filter` (real_time.py lines 72-77). -/
def filterMapping : List (String × (NumLib → List ℚ → ℚ → List ℚ)) :=
  [("Biting", filter_biting), ("Blink", filter_blink),
   ("Eyebrow", filter_eyebrow), ("Jaw Clench", filter_jaw)]

/-- Translation of `mapping.get(filter_name, filter_jaw)` (real_time.py
line 78): dictionary lookup with `filter_jaw` as the default. -/
def mappingGet (filter_name : String) : NumLib → List ℚ → ℚ → List ℚ :=
  match filterMapping.lookup filter_name with
  | some f => f
  | none => filter_jaw

/-- Outcome of `pd.read_csv` on one intake file: an exception, or the
numeric matrix `df.iloc[:, 1:].to_numpy().T` (channels × timepoints;
column 0, the timestamps, is split off and unused downstream). -/
inductive ReadResult where
  | err
  | ok (eeg_data : List (List ℚ))

/-- Per-process opaque inputs of the polling loop: the numeric kernels,
the two pickled classifiers with the filter-stage label codec, the
outcome of `pd.read_csv` per file identifier, the `random.randint` draw
per file, the two `time.time()` readings taken for a file (`startT`
before the filter stage, `endT` after the action label is printed), and
the decimal formatting of the latency print. -/
structure PipelineEnv where
  lib : NumLib
  filterPredict : List PyVal → ℕ
  filterDecode : ℕ → String
  clfPredict : List ℚ → ℕ
  read : ℕ → ReadResult
  rand : ℕ → ℕ
  startT : ℕ → ℚ
  endT : ℕ → ℚ
  fmt2 : ℚ → String

/-- Translation of `choose_filter(snippet, fs)` (real_time.py lines
64-79): extract the six filter features, ask the filter-selector model
for a class index, decode it to a name, and resolve the name through the
dictionary with the `filter_jaw` fallback.  The filter selector is a
scikit-learn `RandomForestClassifier` (filter_classifier.py lines
74-81), and `predict` validates its input, raising `ValueError` on any
non-finite entry; in the rational model the representable non-finite
feature value is the `posInf` ratio sentinel, so the validation is
modelled as rejecting a feature vector containing `posInf` (at a
header-only snippet the source vector additionally holds NaN entries,
equally rejected by scikit-learn, which this model idealises as finite). -/
def choose_filter (env : PipelineEnv) (snippet : List (List ℚ)) (fs : ℚ) :
    Except String ((NumLib → List ℚ → ℚ → List ℚ) × String) :=
  let features := extract_filter_features env.lib snippet fs
  if PyVal.posInf ∈ features then
    .error ("Input contains infinity or a value too large")
  else
    let pred_class := env.filterPredict features
    let filter_name := env.filterDecode pred_class
    .ok (mappingGet filter_name, filter_name)

/-- Translation of `apply_filter_to_snippet(snippet, fs)` (real_time.py
lines 81-84): apply the chosen filter function to every channel
independently. -/
def apply_filter_to_snippet (env : PipelineEnv) (snippet : List (List ℚ)) (fs : ℚ) :
    Except String (List (List ℚ) × String) :=
  match choose_filter env snippet fs with
  | .error e => .error e
  | .ok fn =>
    .ok (snippet.map (fun channel => fn.1 env.lib channel fs), fn.2)

/-- Signal conditioning for a given (already decoded) filter name: the
per-channel list comprehension of `apply_filter_to_snippet` with the
function `mapping.get(filter_name, filter_jaw)`. -/
def conditionSnippet (L : NumLib) (filter_name : String) (snippet : List (List ℚ))
    (fs : ℚ) : List (List ℚ) :=
  snippet.map (fun channel => mappingGet filter_name L channel fs)

/-- Translation of `extract_features_from_sample(eeg_sample, sfreq)`
(real_time.py lines 108-117), the real-time ActionFeatureVector builder.
The imperative `feature_vector.extend` accumulation is a left fold; the
final `np.array(...).reshape(1, -1)` only changes the array shape and is
dropped.  Per channel: mean and std of the Welch PSD with
`nperseg = min(256, len(channel))`; then per-channel time-domain means,
stds, skewnesses and kurtoses. -/
def extract_features_from_sample (L : NumLib) (eeg_sample : List (List ℚ))
    (sfreq : ℚ) : List ℚ :=
  let fv1 := eeg_sample.foldl (fun feature_vector channel =>
      let fp := L.welch sfreq channel (min 256 channel.length)
      feature_vector ++ [npMean fp.2, L.std fp.2]) []
  let fv2 := fv1 ++ eeg_sample.map npMean
  let fv3 := fv2 ++ eeg_sample.map L.std
  let fv4 := fv3 ++ eeg_sample.map L.skew
  let fv5 := fv4 ++ eeg_sample.map L.kurtosis
  fv5

/-- Translation of the offline trainer `extract_features(eeg_data, sfreq)`
(action_classifier.py lines 26-53): the same per-sample accumulation,
duplicated in the source; the trainer extends with `[psd.mean()]` and
`[psd.std()]` in two separate statements and appends one flat feature
vector per sample. -/
def extract_features (L : NumLib) (eeg_data : List (List (List ℚ))) (sfreq : ℚ) :
    List (List ℚ) :=
  eeg_data.foldl (fun features sample =>
    let fv1 := sample.foldl (fun feature_vector channel =>
        let fp := L.welch sfreq channel (min 256 channel.length)
        feature_vector ++ [npMean fp.2] ++ [L.std fp.2]) []
    let fv2 := fv1 ++ sample.map npMean
    let fv3 := fv2 ++ sample.map L.std
    let fv4 := fv3 ++ sample.map L.skew
    let fv5 := fv4 ++ sample.map L.kurtosis
    features ++ [fv5]) []

/-- ActionFeatureVector schema written from the words of spec section 3:
per channel in channel order, the mean then the std of the Welch PSD of
that channel (segment length `min(256, channel length)`); then, across
all channels, the time-domain means, then the stds, then the skewnesses,
then the kurtoses. -/
def actionFeatureVectorSpec (L : NumLib) (channels : List (List ℚ)) (sfreq : ℚ) :
    List ℚ :=
  (channels.map (fun ch =>
      let fp := L.welch sfreq ch (min 256 ch.length)
      [npMean fp.2, L.std fp.2])).flatten
    ++ channels.map npMean ++ channels.map L.std
    ++ channels.map L.skew ++ channels.map L.kurtosis

/-- Translation of `snippet_length = int(256 * 2.5)` (real_time.py line
134): `int(640.0) = 640`. -/
def snippet_length : ℕ := 640

/-- Number of timepoints of the matrix, `eeg_data.shape[1]` (for the
rectangular arrays produced by pandas this is the length of any row). -/
def nTimepoints (eeg_data : List (List ℚ)) : ℕ := (eeg_data.headD []).length

/-- Translation of the window selection (real_time.py lines 135-141):
when the snippet is longer than `snippet_length`, slice
`eeg_data[:, start_idx : start_idx + snippet_length]` at
`start_idx = random.randint(0, n_timepoints - snippet_length)`; otherwise
use the whole matrix.  The uniform draw of `random.randint(0, k)` is
modelled as `r % (k + 1)` for an arbitrary seed `r`, which ranges over
exactly the interval `[0, k]`. -/
def selectWindow (eeg_data : List (List ℚ)) (r : ℕ) : List (List ℚ) :=
  let n_timepoints := nTimepoints eeg_data
  if snippet_length < n_timepoints then
    let start_idx := r % (n_timepoints - snippet_length + 1)
    eeg_data.map (fun channel => (channel.drop start_idx).take snippet_length)
  else eeg_data

/-- Translation of the hard-coded index-to-label dictionary
`{0: "Biting", 1: "Blink", 2: "Eyebrow", 3: "Jaw Clench"}` (real_time.py
line 156); python raises `KeyError` on a missing key, hence `Option`. -/
def actionMapping (i : ℕ) : Option String :=
  List.lookup i [(0, "Biting"), (1, "Blink"), (2, "Eyebrow"), (3, "Jaw Clench")]

/-- Status of one snippet run of the loop body: the read failed and was
caught by the `try` block (`continue`), an exception was raised outside
the `try` block (uncaught, aborts the loop), or the run completed. -/
inductive FileStatus where
  | readFailed
  | crashed
  | completed
deriving DecidableEq, Repr

/-- Translation of the per-file body of the polling loop (real_time.py
lines 125-167): read the file (only this step is inside `try`), select
the analysis window, time-stamp, choose and apply a filter, extract the
action features, predict and decode the action, time-stamp again, and
emit the three telemetry lines.  Returns the emitted lines and the run
status.  Possible uncaught exceptions on this path: `welch` on an empty
channel inside the filter-feature extraction, and a `KeyError` from the
action-label dictionary. -/
def processFile (env : PipelineEnv) (f : ℕ) : List String × FileStatus :=
  match env.read f with
  | .err => (["Error reading file " ++ toString f ++ " : <exception>"], .readFailed)
  | .ok eeg_data =>
    let snippet0 := selectWindow eeg_data (env.rand f)
    let sfreq : ℚ := 256
    let start_time := env.startT f
    match apply_filter_to_snippet env snippet0 sfreq with
    | .error _ => ([], .crashed)
    | .ok sc =>
      let line1 := "Chosen Filter: " ++ sc.2
      let features := extract_features_from_sample env.lib sc.1 sfreq
      let predicted_numeric := env.clfPredict features
      match actionMapping predicted_numeric with
      | none => ([line1], .crashed)
      | some predicted_action =>
        let line2 := "Predicted Action: " ++ predicted_action
        let end_time := env.endT f
        let latency_ms := (end_time - start_time) * 1000
        let line3 := "End-to-end processing latency: " ++ env.fmt2 latency_ms ++ " ms\n"
        ([line1, line2, line3], .completed)

/-- Insertion of one element into an ascending list. -/
def insertAsc (x : ℕ) : List ℕ → List ℕ
  | [] => [x]
  | y :: ys => if x ≤ y then x :: y :: ys else y :: insertAsc x ys

/-- Ascending insertion sort, modelling python `sorted(...)`. -/
def sortAsc (l : List ℕ) : List ℕ := l.foldr insertAsc []

/-- Translation of
`new_files = set(os.listdir(buffer_dir)) - processed_files` followed by
`sorted(new_files)` (real_time.py lines 120-124): the identifiers of the
current listing that are not yet consumed, each once, in ascending
order. -/
def newFilesSorted (processed current : List ℕ) : List ℕ :=
  sortAsc (current.dedup.filter (fun f => decide (f ∉ processed)))

/-- Translation of the `for selected_file in sorted(new_files)` loop
(real_time.py lines 124-167) over an already-sorted list of new files:
a caught read error skips the file (`continue`), an uncaught exception
aborts the whole loop (third component `true`), and a completed run adds
the identifier to the consumed set (`processed_files.add`, line 167).
Returns the consumed set, the emitted lines, and the abort flag. -/
def runFiles (env : PipelineEnv) : List ℕ → List ℕ → List ℕ × List String × Bool
  | [], processed => (processed, [], false)
  | f :: rest, processed =>
    let pr := processFile env f
    match pr.2 with
    | .readFailed =>
      let r := runFiles env rest processed
      (r.1, pr.1 ++ r.2.1, r.2.2)
    | .crashed => (processed, pr.1, true)
    | .completed =>
      let r := runFiles env rest (processed.insert f)
      (r.1, pr.1 ++ r.2.1, r.2.2)

/-- One poll iteration of the `while True` loop: list the intake
directory, take the set difference with the consumed set, sort, and run
the per-file bodies. -/
def pollOnce (env : PipelineEnv) (processed current : List ℕ) :
    List ℕ × List String × Bool :=
  runFiles env (newFilesSorted processed current) processed

/-- Translation of
`processed_files = set(os.listdir(buffer_dir))` (real_time.py line 103):
the consumed set starts as the startup listing of the buffer directory. -/
def initialProcessed (listing : List ℕ) : List ℕ := listing.dedup

/-- Identifiers yielded by the Watcher across a sequence of polls with
the given directory listings, starting from the consumed set `p`; a poll
that aborts the loop ends the process (its own yields included). -/
def pollsYields (env : PipelineEnv) : List (List ℕ) → List ℕ → List ℕ
  | [], _ => []
  | cur :: rest, p =>
    let ys := newFilesSorted p cur
    let r := pollOnce env p cur
    if r.2.2 then ys else ys ++ pollsYields env rest r.1

/-- Closed enumeration of the four conditioning filters, from spec
section 3. -/
inductive FilterKind where
  | Biting
  | Blink
  | Eyebrow
  | JawClench
deriving DecidableEq, Repr

/-- Decoded label-codec name of each FilterKind, as produced by the
filter-stage label encoder and consumed by the dictionary of
`choose_filter`. -/
def FilterKind.pyName : FilterKind → String
  | .Biting => "Biting"
  | .Blink => "Blink"
  | .Eyebrow => "Eyebrow"
  | .JawClench => "Jaw Clench"

/-- Fixed passband of each FilterKind in Hz, from spec section 3:
Biting (20,50), Blink (0.1,4), Eyebrow (25,40), JawClench (20,50). -/
def FilterKind.passband : FilterKind → ℚ × ℚ
  | .Biting => (20, 50)
  | .Blink => (1/10, 4)
  | .Eyebrow => (25, 40)
  | .JawClench => (20, 50)

/-- Decidable substring test on the underlying character lists. -/
def strContains (hay needle : String) : Bool :=
  (List.range (hay.data.length + 1)).any
    (fun i => needle.data.isPrefixOf (hay.data.drop i))

/-- Numeric kernels with constant stub values, used to instantiate
universally quantified theorems on concrete inputs. -/
def trivLib : NumLib where
  welch := fun _ _ _ => ([], [])
  butter := fun _ _ _ => ([], [])
  filtfilt := fun _ s => s
  filtfilt_len := fun _ _ => rfl
  skew := fun _ => 0
  kurtosis := fun _ => 0
  var := fun _ => 0
  std := fun _ => 0
  trapezoid := fun _ _ => 0
  welch_nil := fun _ _ => rfl
  trapezoid_nil := rfl

/-- Stub kernels whose spectral estimate of a nonempty signal puts unit
density at 2 Hz (inside the 0.1-4 Hz band, outside 20-50 Hz) and whose
trapezoid sums the densities, so nonempty channels get a nonzero
low-band power and the extracted feature vector is finite. -/
def bandLib : NumLib where
  welch := fun _ signal _ => if signal.length = 0 then ([], []) else ([2], [1])
  butter := fun _ _ _ => ([], [])
  filtfilt := fun _ s => s
  filtfilt_len := fun _ _ => rfl
  skew := fun _ => 0
  kurtosis := fun _ => 0
  var := fun _ => 0
  std := fun _ => 0
  trapezoid := fun ys _ => ys.sum
  welch_nil := fun _ _ => rfl
  trapezoid_nil := rfl

/-- Concrete environment whose reads always fail, for exercising the
caught-read-error path of the loop. -/
def envReadFail : PipelineEnv where
  lib := trivLib
  filterPredict := fun _ => 0
  filterDecode := fun _ => "Blink"
  clfPredict := fun _ => 0
  read := fun _ => .err
  rand := fun _ => 0
  startT := fun _ => 0
  endT := fun _ => 0
  fmt2 := fun _ => "0.00"

/-- Concrete environment in which every file reads as a header-only
snippet: four channels, zero timepoints. -/
def envHeaderOnly : PipelineEnv where
  lib := trivLib
  filterPredict := fun _ => 0
  filterDecode := fun _ => "Blink"
  clfPredict := fun _ => 0
  read := fun _ => .ok [[], [], [], []]
  rand := fun _ => 0
  startT := fun _ => 0
  endT := fun _ => 0
  fmt2 := fun _ => "0.00"

/-- Concrete environment in which every file reads as a well-formed
one-timepoint snippet whose filter features come out finite (via
`bandLib`) and both models give fixed answers; the two clock readings
are 0 and 5 seconds, so the measured latency is 5000 ms. -/
def envHappy : PipelineEnv where
  lib := bandLib
  filterPredict := fun _ => 0
  filterDecode := fun _ => "Blink"
  clfPredict := fun _ => 1
  read := fun _ => .ok [[1], [1], [1], [1]]
  rand := fun _ => 0
  startT := fun _ => 0
  endT := fun _ => 5
  fmt2 := fun _ => "5000.00"

/-- Variant of `envHappy` whose label codec decodes every class index to
a name outside the dictionary of `choose_filter`. -/
def envGarbage : PipelineEnv :=
  { envHappy with filterDecode := fun _ => "garbage" }

/-! ## Helper lemmas about the Watcher loop -/

theorem mem_insertAsc (a x : ℕ) (l : List ℕ) :
    a ∈ insertAsc x l ↔ a = x ∨ a ∈ l := by
  induction l with
  | nil => simp [insertAsc]
  | cons y ys ih =>
    by_cases h : x ≤ y
    · simp [insertAsc, h]
    · simp [insertAsc, h, ih]
      tauto

theorem mem_sortAsc (a : ℕ) (l : List ℕ) : a ∈ sortAsc l ↔ a ∈ l := by
  induction l with
  | nil => simp [sortAsc]
  | cons y ys ih =>
    simp only [sortAsc, List.foldr] at ih ⊢
    rw [mem_insertAsc, ih, List.mem_cons]

theorem mem_newFilesSorted (f : ℕ) (processed current : List ℕ) :
    f ∈ newFilesSorted processed current ↔ f ∈ current ∧ f ∉ processed := by
  simp [newFilesSorted, mem_sortAsc, List.mem_filter, List.mem_dedup]

theorem runFiles_subset (env : PipelineEnv) (fs : List ℕ) :
    ∀ p : List ℕ, p ⊆ (runFiles env fs p).1 := by
  induction fs with
  | nil => intro p; simp [runFiles]
  | cons f rest ih =>
    intro p
    cases hst : (processFile env f).2 with
    | readFailed => simpa [runFiles, hst] using ih p
    | crashed => simp [runFiles, hst]
    | completed =>
      have h1 : p ⊆ p.insert f := List.subset_insert f p
      have h2 := ih (p.insert f)
      simpa [runFiles, hst] using h1.trans h2

theorem runFiles_mem (env : PipelineEnv) (fs : List ℕ) :
    ∀ (p : List ℕ) (f : ℕ), f ∈ (runFiles env fs p).1 →
      f ∈ p ∨ (f ∈ fs ∧ (processFile env f).2 = .completed) := by
  induction fs with
  | nil =>
    intro p f h
    simp only [runFiles] at h
    exact Or.inl h
  | cons g rest ih =>
    intro p f h
    cases hst : (processFile env g).2 with
    | readFailed =>
      simp only [runFiles, hst] at h
      rcases ih p f h with h' | ⟨hf, hc⟩
      · exact Or.inl h'
      · exact Or.inr ⟨List.mem_cons_of_mem _ hf, hc⟩
    | crashed =>
      simp only [runFiles, hst] at h
      exact Or.inl h
    | completed =>
      simp only [runFiles, hst] at h
      rcases ih _ f h with h' | ⟨hf, hc⟩
      · rcases List.mem_insert_iff.mp h' with rfl | hp
        · exact Or.inr ⟨List.mem_cons_self _ _, hst⟩
        · exact Or.inl hp
      · exact Or.inr ⟨List.mem_cons_of_mem _ hf, hc⟩

theorem runFiles_crash (env : PipelineEnv) (fs : List ℕ) :
    ∀ (p : List ℕ) (f : ℕ), f ∈ fs → (processFile env f).2 = .crashed →
      (runFiles env fs p).2.2 = true := by
  induction fs with
  | nil => intro p f h; simp at h
  | cons g rest ih =>
    intro p f hf hc
    cases hst : (processFile env g).2 with
    | readFailed =>
      simp only [runFiles, hst]
      rcases List.mem_cons.mp hf with rfl | hf'
      · rw [hst] at hc; cases hc
      · exact ih p f hf' hc
    | crashed => simp [runFiles, hst]
    | completed =>
      simp only [runFiles, hst]
      rcases List.mem_cons.mp hf with rfl | hf'
      · rw [hst] at hc; cases hc
      · exact ih _ f hf' hc

theorem pollsYields_not (env : PipelineEnv) (polls : List (List ℕ)) :
    ∀ (p : List ℕ) (f : ℕ), f ∈ p → f ∉ pollsYields env polls p := by
  induction polls with
  | nil => intro p f _; simp [pollsYields]
  | cons cur rest ih =>
    intro p f hf
    have hy : f ∉ newFilesSorted p cur := fun h =>
      ((mem_newFilesSorted f p cur).mp h).2 hf
    cases hab : (pollOnce env p cur).2.2 with
    | true => simpa [pollsYields, hab] using hy
    | false =>
      simp only [pollsYields, hab, if_false, List.mem_append, Bool.false_eq_true]
      intro h
      rcases h with h | h
      · exact hy h
      · exact ih _ f (runFiles_subset env _ p hf) h

/-! ## Feature-schema lemmas -/

theorem compute_band_power_nil (L : NumLib) (fs lowcut highcut : ℚ) :
    compute_band_power L [] fs lowcut highcut = 0 := by
  simp [compute_band_power, L.welch_nil, L.trapezoid_nil]

theorem posInf_ne_fin (q : ℚ) : PyVal.posInf ≠ PyVal.fin q :=
  fun h => PyVal.noConfusion h

theorem extract_features_from_sample_eq (L : NumLib) (m : List (List ℚ)) (fs : ℚ) :
    extract_features_from_sample L m fs = actionFeatureVectorSpec L m fs := by
  suffices h : ∀ init : List ℚ,
      m.foldl (fun feature_vector channel =>
        let fp := L.welch fs channel (min 256 channel.length)
        feature_vector ++ [npMean fp.2, L.std fp.2]) init
      = init ++ (m.map (fun ch =>
          let fp := L.welch fs ch (min 256 ch.length)
          [npMean fp.2, L.std fp.2])).flatten by
    simp [extract_features_from_sample, actionFeatureVectorSpec, h, List.append_assoc]
  intro init
  induction m generalizing init with
  | nil => simp
  | cons ch chs ih => simp [ih, List.append_assoc]

theorem length_flatten_two {α β : Type} (g : α → List β) (hg : ∀ x, (g x).length = 2)
    (l : List α) : ((l.map g).flatten).length = 2 * l.length := by
  induction l with
  | nil => simp
  | cons x xs ih =>
    simp [ih, hg]
    omega

/-- C2: the real-time feature routine and the duplicated trainer routine
are extensionally equal: on any single sample (any channel matrix) and
any sampling rate, the trainer produces exactly the feature vector of the
real-time path, for every choice of numeric kernels. -/
theorem train_inference_feature_equivalence (L : NumLib) (sample : List (List ℚ))
    (sfreq : ℚ) :
    extract_features L [sample] sfreq = [extract_features_from_sample L sample sfreq] := by
  simp only [extract_features, extract_features_from_sample,
    List.foldl_cons, List.foldl_nil, List.nil_append]
  simp [List.append_assoc]

/-- C3: the ActionFeatureVector is laid out exactly per the spec schema
(per channel: PSD mean then PSD std with segment length
`min(256, channel length)`; then all means, all stds, all skewnesses,
all kurtoses) and has length `6 * C` for `C` channels. -/
theorem action_feature_vector_layout (L : NumLib) (m : List (List ℚ)) (fs : ℚ) :
    extract_features_from_sample L m fs = actionFeatureVectorSpec L m fs ∧
    (extract_features_from_sample L m fs).length = 6 * m.length := by
  refine ⟨extract_features_from_sample_eq L m fs, ?_⟩
  rw [extract_features_from_sample_eq]
  have h2 : ((m.map (fun ch =>
      let fp := L.welch fs ch (min 256 ch.length)
      [npMean fp.2, L.std fp.2])).flatten).length = 2 * m.length :=
    length_flatten_two (fun ch =>
      let fp := L.welch fs ch (min 256 ch.length)
      [npMean fp.2, L.std fp.2]) (fun _ => rfl) m
  simp [actionFeatureVectorSpec, h2]
  omega

/-- C4: when the snippet has more than `snippet_length = int(256*2.5) = 640`
timepoints, the AnalysisWindow is the contiguous slice of exactly
`snippet_length` timepoints starting at an offset in
`[0, timepoints - snippet_length]`, taken in every channel; when it has at
most `snippet_length` timepoints, the snippet is used unmodified (no
padding, shape preserved). -/
theorem analysis_window_shape (eeg_data : List (List ℚ)) (r : ℕ)
    (hrect : ∀ ch ∈ eeg_data, ch.length = nTimepoints eeg_data) :
    (snippet_length < nTimepoints eeg_data →
      r % (nTimepoints eeg_data - snippet_length + 1) ≤ nTimepoints eeg_data - snippet_length ∧
      selectWindow eeg_data r = eeg_data.map (fun channel =>
        (channel.drop (r % (nTimepoints eeg_data - snippet_length + 1))).take snippet_length) ∧
      (∀ ch ∈ selectWindow eeg_data r, ch.length = snippet_length) ∧
      (selectWindow eeg_data r).length = eeg_data.length) ∧
    (nTimepoints eeg_data ≤ snippet_length → selectWindow eeg_data r = eeg_data) := by
  have hsel : ∀ _ : snippet_length < nTimepoints eeg_data,
      selectWindow eeg_data r = eeg_data.map (fun channel =>
        (channel.drop (r % (nTimepoints eeg_data - snippet_length + 1))).take snippet_length) := by
    intro h
    simp [selectWindow, h]
  constructor
  · intro hT
    have hs : r % (nTimepoints eeg_data - snippet_length + 1)
        ≤ nTimepoints eeg_data - snippet_length := by
      have := Nat.mod_lt r
        (show 0 < nTimepoints eeg_data - snippet_length + 1 by omega)
      omega
    refine ⟨hs, hsel hT, ?_, ?_⟩
    · intro ch hch
      rw [hsel hT] at hch
      rcases List.mem_map.mp hch with ⟨ch0, hch0, rfl⟩
      have hlen := hrect ch0 hch0
      simp only [List.length_take, List.length_drop, hlen]
      omega
    · rw [hsel hT]
      simp
  · intro hT
    simp [selectWindow, Nat.not_lt.mpr hT]

/-- C4 witness at a concrete two-channel, one-timepoint snippet
(the at-most-`snippet_length` branch). -/
theorem analysis_window_shape_witness :
    selectWindow [[(1:ℚ)], [1]] 0 = [[(1:ℚ)], [1]] :=
  (analysis_window_shape [[(1:ℚ)], [1]] 0 (by decide)).2 (by decide)

/-- C6: conditioning a snippet under the decoded name of any FilterKind
applies, to every channel independently, the order-4 Butterworth design
for exactly that FilterKind passband followed by forward-backward
`filtfilt`, and the output has the same shape (row count and per-row
lengths) as the input. -/
theorem conditioner_passband_and_shape (L : NumLib) (k : FilterKind)
    (snippet : List (List ℚ)) (fs : ℚ) :
    conditionSnippet L k.pyName snippet fs
      = snippet.map (fun channel =>
          bandpass_filter L channel fs k.passband.1 k.passband.2 4) ∧
    (conditionSnippet L k.pyName snippet fs).map List.length
      = snippet.map List.length := by
  constructor
  · cases k <;> rfl
  · simp only [conditionSnippet, List.map_map]
    apply List.map_congr_left
    intro ch _
    cases k <;> exact L.filtfilt_len _ _

/-- C1 counterexample: with a read that raises, identifier 5 is yielded
and attempted by the first poll, yet the consumed set stays empty, so the
very next poll over the same listing yields it again — a failed parse
does not mark the identifier consumed. -/
theorem watcher_failed_read_counterexample :
    5 ∈ newFilesSorted [] [5] ∧
    (pollOnce envReadFail [] [5]).1 = [] ∧
    5 ∈ newFilesSorted (pollOnce envReadFail [] [5]).1 [5] := by
  decide

/-- C1 (amended): an identifier enters the consumed set only after a
fully successful processing run; identifiers already consumed are never
yielded again; but an identifier whose read fails is left out of the
consumed set and, while still listed, is yielded again by the next poll. -/
theorem watcher_at_most_once_amended (env : PipelineEnv)
    (processed current : List ℕ) (f : ℕ) :
    (f ∈ processed → f ∉ newFilesSorted processed current) ∧
    processed ⊆ (pollOnce env processed current).1 ∧
    (f ∈ (pollOnce env processed current).1 →
      f ∈ processed ∨ (processFile env f).2 = .completed) ∧
    ((processFile env f).2 = .readFailed → f ∈ current → f ∉ processed →
      f ∉ (pollOnce env processed current).1 ∧
      f ∈ newFilesSorted (pollOnce env processed current).1 current) := by
  refine ⟨?_, runFiles_subset env _ processed, ?_, ?_⟩
  · intro hp hmem
    exact ((mem_newFilesSorted f processed current).mp hmem).2 hp
  · intro h
    rcases runFiles_mem env _ processed f h with h' | ⟨_, hc⟩
    · exact Or.inl h'
    · exact Or.inr hc
  · intro hrf hc hp
    have hnot : f ∉ (pollOnce env processed current).1 := by
      intro h
      rcases runFiles_mem env _ processed f h with h' | ⟨_, hcomp⟩
      · exact hp h'
      · rw [hrf] at hcomp; cases hcomp
    exact ⟨hnot, (mem_newFilesSorted f _ current).mpr ⟨hc, hnot⟩⟩

/-- C1 witness: concrete poll in which the failed file 5 stays
unconsumed and is re-yielded. -/
theorem watcher_at_most_once_amended_witness :
    5 ∉ (pollOnce envReadFail [3] [3, 5]).1 ∧
    5 ∈ newFilesSorted (pollOnce envReadFail [3] [3, 5]).1 [3, 5] :=
  (watcher_at_most_once_amended envReadFail [3] [3, 5] 5).2.2.2
    (by decide) (by decide) (by decide)

/-- C7 counterexample: a header-only intake file (four channels, zero
data rows) raises an uncaught error — the poll aborts the loop and the
identifier is never marked processed. -/
theorem header_only_crash_counterexample :
    (pollOnce envHeaderOnly [] [1]).2.2 = true ∧
    1 ∉ (pollOnce envHeaderOnly [] [1]).1 := by
  have hmem : PyVal.posInf ∈ extract_filter_features trivLib [[], [], [], []] 256 := by
    norm_num [extract_filter_features, compute_band_power, trivLib, npMean]
  have hpf : processFile envHeaderOnly 1 = ([], .crashed) := by
    simp [processFile, envHeaderOnly, selectWindow, nTimepoints, snippet_length,
      apply_filter_to_snippet, choose_filter, hmem]
  have hnf : newFilesSorted [] [1] = [1] := rfl
  constructor
  · show (runFiles envHeaderOnly (newFilesSorted [] [1]) []).2.2 = true
    rw [hnf]
    simp [runFiles, hpf]
  · show 1 ∉ (runFiles envHeaderOnly (newFilesSorted [] [1]) []).1
    rw [hnf]
    simp [runFiles, hpf]

/-- C7 (amended): a header-only snippet passes the read stage (the only
stage protected by `try`), and filter-feature extraction completes
without error — `welch` early-returns empty arrays on the zero-length
channels, every band power is `0.0` and the ratio feature is the
`posInf` sentinel — but the filter-selector `predict` then rejects the
non-finite feature vector (scikit-learn input validation), and that
error is raised outside the `try` block: the run crashes, the polling
loop aborts, and the identifier is not marked processed. -/
theorem header_only_aborts_loop (env : PipelineEnv) (f : ℕ)
    (eeg_data : List (List ℚ))
    (h1 : env.read f = .ok eeg_data) (h2 : eeg_data ≠ [])
    (h3 : ∀ ch ∈ eeg_data, ch = ([] : List ℚ))
    (processed current : List ℕ) (h4 : f ∈ current) (h5 : f ∉ processed) :
    processFile env f = ([], .crashed) ∧
    (pollOnce env processed current).2.2 = true ∧
    f ∉ (pollOnce env processed current).1 := by
  have hT : nTimepoints eeg_data = 0 := by
    rcases eeg_data with _ | ⟨ch0, rest⟩
    · rfl
    · simp [nTimepoints, h3 ch0 (List.mem_cons_self _ _)]
  have hlow : npMean (eeg_data.map
      (fun channel => compute_band_power env.lib channel 256 (1/10) 4)) = 0 := by
    have hz : ∀ x ∈ eeg_data.map
        (fun channel => compute_band_power env.lib channel 256 (1/10) 4), x = (0:ℚ) := by
      intro x hx
      rcases List.mem_map.mp hx with ⟨ch, hch, rfl⟩
      rw [h3 ch hch]
      exact compute_band_power_nil env.lib 256 (1/10) 4
    have hsum := List.sum_eq_zero hz
    simp only [npMean]
    rw [hsum]
    exact zero_div _
  have hmem : PyVal.posInf ∈ extract_filter_features env.lib eeg_data 256 := by
    simp only [extract_filter_features]
    rw [hlow]
    simp
  have hpf : processFile env f = ([], .crashed) := by
    simp [processFile, h1, selectWindow, hT, snippet_length,
      apply_filter_to_snippet, choose_filter, hmem]
  refine ⟨hpf, ?_, ?_⟩
  · exact runFiles_crash env _ processed f
      ((mem_newFilesSorted f processed current).mpr ⟨h4, h5⟩) (by rw [hpf])
  · intro hmem
    rcases runFiles_mem env _ processed f hmem with h' | ⟨_, hcomp⟩
    · exact h5 h'
    · rw [hpf] at hcomp
      simp at hcomp

/-- C7 witness: the amended behaviour at the concrete header-only
environment. -/
theorem header_only_aborts_loop_witness :
    processFile envHeaderOnly 1 = ([], .crashed) ∧
    (pollOnce envHeaderOnly [] [1]).2.2 = true ∧
    1 ∉ (pollOnce envHeaderOnly [] [1]).1 :=
  header_only_aborts_loop envHeaderOnly 1 [[], [], [], []] rfl (by decide)
    (by decide) [] [1] (by decide) (by decide)

/-- C10: every identifier listed in the buffer directory at process
start is in the consumed set before the first poll and is never yielded
by the Watcher on any later poll, for any poll sequence and any
environment. -/
theorem startup_files_never_yielded (env : PipelineEnv) (startup : List ℕ)
    (polls : List (List ℕ)) (f : ℕ) (hf : f ∈ startup) :
    f ∈ initialProcessed startup ∧
    f ∉ pollsYields env polls (initialProcessed startup) := by
  have hf0 : f ∈ initialProcessed startup := List.mem_dedup.mpr hf
  exact ⟨hf0, pollsYields_not env polls (initialProcessed startup) f hf0⟩

/-- C10 witness: file 2, present at startup, is consumed from the start
and never yielded across a concrete poll. -/
theorem startup_files_never_yielded_witness :
    2 ∈ initialProcessed [2] ∧
    2 ∉ pollsYields envReadFail [[2, 3]] (initialProcessed [2]) :=
  startup_files_never_yielded envReadFail [2] [[2, 3]] 2 (by decide)

/-- C5: for every raw AnalysisWindow — any channel matrix, zero-timepoint
windows included — filter-feature extraction returns normally, with no
division error, and its sixth entry, the ratio feature, is the
positive-infinity sentinel exactly when the average low-band (0.1-4 Hz)
power is `0`, and the average high-band (20-50 Hz) power divided by the
average low-band power in every other case. -/
theorem filter_ratio_sentinel (L : NumLib) (snippet : List (List ℚ)) (fs : ℚ) :
    extract_filter_features L snippet fs =
      [.fin (npMean (snippet.map L.var)), .fin (npMean (snippet.map L.skew)),
       .fin (npMean (snippet.map L.kurtosis)),
       .fin (npMean (snippet.map (fun channel => compute_band_power L channel fs 20 50))),
       .fin (npMean (snippet.map (fun channel => compute_band_power L channel fs (1/10) 4))),
       if npMean (snippet.map (fun channel => compute_band_power L channel fs (1/10) 4)) ≠ 0
       then .fin (npMean (snippet.map (fun channel => compute_band_power L channel fs 20 50))
            / npMean (snippet.map (fun channel => compute_band_power L channel fs (1/10) 4)))
       else PyVal.posInf] ∧
    ((if npMean (snippet.map (fun channel => compute_band_power L channel fs (1/10) 4)) ≠ 0
       then PyVal.fin (npMean (snippet.map (fun channel => compute_band_power L channel fs 20 50))
            / npMean (snippet.map (fun channel => compute_band_power L channel fs (1/10) 4)))
       else PyVal.posInf) = PyVal.posInf
      ↔ npMean (snippet.map (fun channel => compute_band_power L channel fs (1/10) 4)) = 0) := by
  refine ⟨rfl, ?_, ?_⟩
  · intro he
    by_cases h : npMean (snippet.map
        (fun channel => compute_band_power L channel fs (1/10) 4)) = 0
    · exact h
    · rw [if_pos h] at he
      exact PyVal.noConfusion he
  · intro h
    rw [if_neg (not_not_intro h)]

/-- C9: when the feature vector is finite (so the filter-selector model
accepts it) and the filter-stage label codec decodes the predicted class
index to any name outside the four dictionary keys, `choose_filter` does
not fail: it returns the `filter_jaw` fallback, which conditions with the
order-4 bandpass on the 20-50 Hz Jaw Clench passband. -/
theorem choose_filter_fallback (env : PipelineEnv) (snippet : List (List ℚ))
    (fs : ℚ)
    (hfin : PyVal.posInf ∉ extract_filter_features env.lib snippet fs)
    (hname : env.filterDecode (env.filterPredict
        (extract_filter_features env.lib snippet fs)) ∉
      ["Biting", "Blink", "Eyebrow", "Jaw Clench"]) :
    choose_filter env snippet fs
      = .ok (filter_jaw, env.filterDecode (env.filterPredict
          (extract_filter_features env.lib snippet fs))) ∧
    (∀ signal, filter_jaw env.lib signal fs
      = bandpass_filter env.lib signal fs 20 50 4) := by
  simp only [List.mem_cons, List.not_mem_nil, or_false, not_or] at hname
  obtain ⟨n1, n2, n3, n4⟩ := hname
  have b1 : (env.filterDecode (env.filterPredict
      (extract_filter_features env.lib snippet fs)) == "Biting") = false :=
    beq_eq_false_iff_ne.mpr n1
  have b2 : (env.filterDecode (env.filterPredict
      (extract_filter_features env.lib snippet fs)) == "Blink") = false :=
    beq_eq_false_iff_ne.mpr n2
  have b3 : (env.filterDecode (env.filterPredict
      (extract_filter_features env.lib snippet fs)) == "Eyebrow") = false :=
    beq_eq_false_iff_ne.mpr n3
  have b4 : (env.filterDecode (env.filterPredict
      (extract_filter_features env.lib snippet fs)) == "Jaw Clench") = false :=
    beq_eq_false_iff_ne.mpr n4
  refine ⟨?_, fun _ => rfl⟩
  simp [choose_filter, hfin, mappingGet, filterMapping, List.lookup, b1, b2, b3, b4]

/-- C9 witness: a codec that decodes everything to the unknown name
"garbage" still selects a filter — the jaw fallback. -/
theorem choose_filter_fallback_witness :
    choose_filter envGarbage [[(1:ℚ)]] 256 = .ok (filter_jaw, "garbage") ∧
    (∀ signal, filter_jaw envGarbage.lib signal 256
      = bandpass_filter envGarbage.lib signal 256 20 50 4) :=
  choose_filter_fallback envGarbage [[(1:ℚ)]] 256
    (by norm_num [extract_filter_features, compute_band_power, envGarbage, envHappy,
          bandLib, npMean, posInf_ne_fin])
    (by decide)

/-- C8 counterexample: in a completed concrete run the telemetry is
three lines; the line carrying the marker `Predicted Action: ` contains
the ActionLabel but not the measured latency (the latency `5000.00`
appears only on its own separate third line), so no single line carries
both the action marker and the latency. -/
theorem telemetry_latency_line_counterexample :
    (processFile envHappy 7).2 = .completed ∧
    ("Chosen Filter: Blink") ∈ (processFile envHappy 7).1 ∧
    ¬ ∃ l ∈ (processFile envHappy 7).1,
        ("Predicted Action: ".data.isPrefixOf l.data = true ∧
         strContains l (envHappy.fmt2
           ((envHappy.endT 7 - envHappy.startT 7) * 1000)) = true) := by
  have hfin : PyVal.posInf ∉ extract_filter_features bandLib [[1], [1], [1], [1]] 256 := by
    norm_num [extract_filter_features, compute_band_power, bandLib, npMean,
      posInf_ne_fin]
  have e1 : (("Blink" : String) == "Biting") = false := by decide
  have e2 : (("Blink" : String) == "Blink") = true := by decide
  have hff : ∀ ba s, bandLib.filtfilt ba s = s := fun _ _ => rfl
  have hpf : processFile envHappy 7 =
      (["Chosen Filter: " ++ "Blink", "Predicted Action: " ++ "Blink",
        "End-to-end processing latency: " ++ "5000.00" ++ " ms\n"], .completed) := by
    simp [processFile, envHappy, selectWindow, nTimepoints, snippet_length,
      apply_filter_to_snippet, choose_filter, hfin, mappingGet, filterMapping,
      List.lookup, e1, e2, filter_blink, bandpass_filter, hff, actionMapping]
  rw [hpf]
  decide

/-- C8 (amended): a successfully processed snippet emits exactly three
lines, in order: `Chosen Filter: ` with the chosen FilterKind,
`Predicted Action: ` with the ActionLabel, and then a separate latency
line reporting `(endT - startT) * 1000` milliseconds, where `startT` is
the clock reading taken before filter selection and conditioning begin
and `endT` the reading taken after the ActionLabel is produced and
printed. -/
theorem telemetry_lines_amended (env : PipelineEnv) (f : ℕ)
    (eeg_data snippet : List (List ℚ)) (chosen_filter predicted_action : String)
    (h1 : env.read f = .ok eeg_data)
    (h2 : apply_filter_to_snippet env (selectWindow eeg_data (env.rand f)) 256
      = .ok (snippet, chosen_filter))
    (h3 : actionMapping (env.clfPredict
      (extract_features_from_sample env.lib snippet 256)) = some predicted_action) :
    processFile env f =
      (["Chosen Filter: " ++ chosen_filter,
        "Predicted Action: " ++ predicted_action,
        "End-to-end processing latency: "
          ++ env.fmt2 ((env.endT f - env.startT f) * 1000) ++ " ms\n"],
       .completed) := by
  simp [processFile, h1, h2, h3]

/-- C8 witness: the three telemetry lines of the concrete completed
run. -/
theorem telemetry_lines_amended_witness :
    processFile envHappy 7 =
      (["Chosen Filter: Blink", "Predicted Action: Blink",
        "End-to-end processing latency: 5000.00 ms\n"], .completed) :=
  telemetry_lines_amended envHappy 7 [[1], [1], [1], [1]] [[1], [1], [1], [1]]
    ("Blink") ("Blink") rfl
    (by
      have hfin : PyVal.posInf ∉
          extract_filter_features bandLib [[1], [1], [1], [1]] 256 := by
        norm_num [extract_filter_features, compute_band_power, bandLib, npMean,
      posInf_ne_fin]
      have e1 : (("Blink" : String) == "Biting") = false := by decide
      have e2 : (("Blink" : String) == "Blink") = true := by decide
      have hff : ∀ ba s, bandLib.filtfilt ba s = s := fun _ _ => rfl
      simp [apply_filter_to_snippet, choose_filter, envHappy, selectWindow,
        nTimepoints, snippet_length, hfin, mappingGet, filterMapping, List.lookup,
        e1, e2, filter_blink, bandpass_filter, hff])
    rfl
